import Mathlib

/-!
Verification development for the P.I.T Tools promotional lead-capture bot
(source: src/PIT.py, a single-file Telegram bot).

The Python program is shallowly embedded below:
* the SQLite `users` table of `UserManager` becomes a `List UserRecord`
  (primary key `user_id`, UNIQUE constraint on `phone`);
* a database connection failure (`get_connection` returning `None`, or an
  exception in a query) is modelled by a boolean `conn` flag: every
  `UserManager` method first checks it, mirroring the `if conn is None` /
  `except` paths of the source;
* the Google-Sheets sink (`GoogleSheetsManager`) becomes `SheetState`
  (connectivity flag plus appended rows); a raised exception inside
  `append_row` is modelled by a boolean `appendOk` oracle, since `add_lead`
  catches every exception and returns `False`;
* Telegram handlers become pure functions from the relevant state to the
  new state plus an outcome constructor (one constructor per distinct
  user-visible reply of the handler);
* the broadcast fan-out loop of `broadcast_confirm` becomes a tail-recursive
  function over the recipient list with oracles `sendOk` (does the send for
  the i-th iteration succeed) and `editOk` (does the progress-message edit
  in the i-th iteration succeed), both indexed by the 1-based loop counter;
* Python floats in the delivery-percentage computation are modelled as exact
  rationals, with `round(x, 1)` as round-half-to-even at one decimal;
* wall-clock timestamps (`registered_at`, the sheet's date column) are
  omitted: no claim mentions them.
-/

/-- One row of the SQLite `users` table (timestamp column omitted). -/
structure UserRecord where
  userId : Nat
  phone : String
  username : String
  firstName : String
  coupon : String
deriving DecidableEq, Repr

/-- `UserManager.is_user_registered`: `SELECT user_id FROM users WHERE user_id = ?`
and test whether a row came back.  On a connection failure or query error the
source logs and returns `False`. -/
def isUserRegistered (conn : Bool) (table : List UserRecord) (uid : Nat) : Bool :=
  conn && table.any (fun r => r.userId == uid)

/-- `UserManager.get_user_coupon`: `SELECT coupon_code FROM users WHERE user_id = ?`;
`None` when no row, and also `None` on a connection failure or query error. -/
def getUserCoupon (conn : Bool) (table : List UserRecord) (uid : Nat) : Option String :=
  if conn then (table.find? (fun r => r.userId == uid)).map (fun r => r.coupon) else none

/-- `UserManager.register_user`: `INSERT OR REPLACE INTO users ...`.
SQLite's `OR REPLACE` deletes every row that conflicts on any uniqueness
constraint — the `user_id` primary key or the UNIQUE `phone` column — and then
inserts the new row.  Returns `False` when the connection is unavailable. -/
def registerUser (conn : Bool) (table : List UserRecord) (rec : UserRecord) :
    List UserRecord × Bool :=
  if conn then
    (table.filter (fun r => !(r.userId == rec.userId) && !(r.phone == rec.phone)) ++ [rec],
     true)
  else (table, false)

/-- `UserManager.get_stats`: `SELECT COUNT(*) FROM users`; `0` on failure. -/
def getStats (conn : Bool) (table : List UserRecord) : Nat :=
  if conn then table.length else 0

/-- `UserManager.get_all_users`: `SELECT user_id FROM users`, returned as a
list of ids; `[]` on failure. -/
def getAllUsers (conn : Bool) (table : List UserRecord) : List Nat :=
  if conn then table.map (fun r => r.userId) else []

/-- State of the Google-Sheets lead sink: the `is_connected` flag set by
`setup_gsheets` and the rows appended so far. -/
structure SheetState where
  isConnected : Bool
  rows : List (List String)
deriving DecidableEq, Repr

/-- `GoogleSheetsManager.add_lead`: returns `False` immediately when not
connected; otherwise appends the row, returning `False` (without raising —
the source catches every exception) when the append fails. -/
def addLead (appendOk : Bool) (sheet : SheetState) (row : List String) :
    SheetState × Bool :=
  if !sheet.isConnected then (sheet, false)
  else if appendOk then ({ sheet with rows := sheet.rows ++ [row] }, true)
  else (sheet, false)

/-- Zero-pad the decimal form of `n` to at least four digits, the meaning of
Python's `:04d` format on a non-negative integer. -/
def zpad4 (n : Nat) : String :=
  let s := toString n
  String.mk (List.replicate (4 - s.length) '0') ++ s

/-- The coupon generated at `handle_contact` line 666:
`f"PIT-0423-15"`-style, i.e. `"PIT-" + format(user.id % 10000, "04d") + "-15"`. -/
def genCoupon (uid : Nat) : String :=
  "PIT-" ++ zpad4 (uid % 10000) ++ "-15"

/-- Phone normalisation in `handle_contact`: prepend `+` when missing. -/
def normalizePhone (p : String) : String :=
  if p.startsWith "+" then p else "+" ++ p

/-- The Telegram user issuing the update. -/
structure TgUser where
  id : Nat
  username : Option String
  firstName : String
deriving DecidableEq, Repr

/-- A shared contact card.  `userId` is `none` when the contact is not a
Telegram user (Python `contact.user_id is None`). -/
structure Contact where
  userId : Option Nat
  phoneNumber : String
  firstName : String
  lastName : Option String
deriving DecidableEq, Repr

/-- The distinct replies `handle_contact` can produce. -/
inductive ContactOutcome where
  /-- Early return: "you already participated", showing the stored coupon. -/
  | alreadyRegistered (coupon : Option String)
  /-- Full success path: the coupon message is sent, and the admin is notified
  with the sheet-write flag. -/
  | couponIssued (coupon : String) (sheetsOk : Bool)
  /-- Local registration returned `False`: "try again later", no coupon. -/
  | registrationFailed
  /-- The shared contact is not the requester's own: "please share your own
  phone number" re-prompt. -/
  | promptOwnContact
deriving DecidableEq, Repr

/-- The row `add_lead` receives in `handle_contact` (timestamp omitted). -/
def leadRow (c : Contact) (phone : String) (user : TgUser) (coupon : String) :
    List String :=
  [c.firstName, c.lastName.getD "", phone, user.username.getD "", toString user.id, coupon]

/-- `handle_contact`: re-check enrollment first; verify the contact is the
requester's own; normalise the phone, derive the coupon, register locally,
mirror to the sheet (best effort), then branch on the local result. -/
def handleContact (conn appendOk : Bool) (sheet : SheetState)
    (table : List UserRecord) (user : TgUser) (c : Contact) :
    List UserRecord × SheetState × ContactOutcome :=
  if isUserRegistered conn table user.id then
    (table, sheet, .alreadyRegistered (getUserCoupon conn table user.id))
  else if c.userId == some user.id then
    let phone := normalizePhone c.phoneNumber
    let couponCode := genCoupon user.id
    let newRow : UserRecord :=
      { userId := user.id, phone := phone, username := user.username.getD ""
        firstName := c.firstName, coupon := couponCode }
    let reg := registerUser conn table newRow
    let sink := addLead appendOk sheet (leadRow c phone user couponCode)
    if reg.2 then (reg.1, sink.1, .couponIssued couponCode sink.2)
    else (reg.1, sink.1, .registrationFailed)
  else (table, sheet, .promptOwnContact)

/-- Replies of the `/start` handler. -/
inductive StartOutcome where
  /-- "Hello again", showing the stored coupon. -/
  | existingCoupon (coupon : Option String)
  /-- The welcome message with subscribe / verify buttons. -/
  | welcome
deriving DecidableEq, Repr

/-- `start`: show the existing coupon to an enrolled user, otherwise the
welcome call-to-action.  The handler performs no database write. -/
def startHandler (conn : Bool) (table : List UserRecord) (uid : Nat) : StartOutcome :=
  if isUserRegistered conn table uid then .existingCoupon (getUserCoupon conn table uid)
  else .welcome

/-- Telegram chat-membership states relevant to `check_subscription`. -/
inductive MemberStatus where
  | member
  | administrator
  | creator
  | leftChat
  | kicked
  | restricted
deriving DecidableEq, Repr

/-- Replies of the `check_subscription` callback handler. -/
inductive CheckOutcome where
  /-- Early return: "you already participated", showing the stored coupon. -/
  | alreadyRegistered (coupon : Option String)
  /-- Subscribed: prompt for the contact share. -/
  | promptContact
  /-- Not subscribed: re-prompt to subscribe. -/
  | notSubscribed
  /-- `get_chat_member` raised: transient-error notice, no state change. -/
  | transientError
deriving DecidableEq, Repr

/-- `check_subscription`: re-check enrollment first; then query membership
(`none` models a raised gateway error); `member`, `administrator` and
`creator` count as subscribed.  The handler performs no database write. -/
def checkSubscriptionHandler (conn : Bool) (table : List UserRecord) (uid : Nat)
    (status : Option MemberStatus) : CheckOutcome :=
  if isUserRegistered conn table uid then .alreadyRegistered (getUserCoupon conn table uid)
  else
    match status with
    | none => .transientError
    | some s =>
        if s = MemberStatus.member ∨ s = MemberStatus.administrator ∨
            s = MemberStatus.creator then
          .promptContact
        else .notSubscribed

/-- The broadcast draft held in `context.user_data` during the admin form. -/
structure BroadcastDraft where
  broadcastType : Option String
  broadcastText : Option String
  broadcastPhotoId : Option String
deriving DecidableEq, Repr

/-- `ConversationHandler` states returned by the broadcast handlers:
`ended` is `ConversationHandler.END`, the other two are the
`BROADCAST_TEXT` / `BROADCAST_PHOTO` form states. -/
inductive ConvState where
  | ended
  | awaitingModeChoice
  | awaitingContent
deriving DecidableEq, Repr

/-- Replies of `broadcast_start`. -/
inductive BroadcastStartOutcome where
  /-- Fixed refusal: "this command is for the administrator only". -/
  | rejectedAdminOnly
  /-- The broadcast panel with the mode keyboard. -/
  | modeSelectPrompt
deriving DecidableEq, Repr

/-- `broadcast_start`: compare `str(user.id)` with the configured
`ADMIN_CHAT_ID`; a non-admin caller gets the fixed refusal and
`ConversationHandler.END`, with `user_data` untouched; the admin gets the
mode-selection panel and the form state `BROADCAST_TEXT`. -/
def broadcastStart (adminChatId : String) (uid : Nat) (ud : BroadcastDraft) :
    BroadcastDraft × BroadcastStartOutcome × ConvState :=
  if toString uid != adminChatId then (ud, .rejectedAdminOnly, .ended)
  else (ud, .modeSelectPrompt, .awaitingModeChoice)

/-- The progress-update condition of the fan-out loop in `broadcast_confirm`:
`i % 10 == 0 or i == total_users` with `i` the 1-based loop counter. -/
def progressPoint (i total : Nat) : Bool :=
  i % 10 == 0 || i == total

/-- The fan-out loop of `broadcast_confirm`, accumulator form.
`i` is the 1-based loop counter; `att` the recipients attempted so far; `s`
and `f` the `success_count` / `fail_count` accumulators.  Per iteration the
`try` block sends, increments `success_count`, and — when `progressPoint`
holds — edits the admin progress message; a raised error anywhere in the
block (send, or edit after a successful send) is caught by the `except`,
which increments `fail_count`, and the loop continues with the next
recipient. -/
def broadcastGo (sendOk editOk : Nat → Bool) (total : Nat) :
    Nat → List Nat → List Nat → Nat → Nat → List Nat × Nat × Nat
  | _, [], att, s, f => (att, s, f)
  | i, u :: rest, att, s, f =>
    if sendOk i then
      if progressPoint i total && !editOk i then
        broadcastGo sendOk editOk total (i + 1) rest (att ++ [u]) (s + 1) (f + 1)
      else
        broadcastGo sendOk editOk total (i + 1) rest (att ++ [u]) (s + 1) f
    else
      broadcastGo sendOk editOk total (i + 1) rest (att ++ [u]) s (f + 1)

/-- The whole fan-out of `broadcast_confirm` over the snapshot `users`:
returns the attempted recipients in order, `success_count` and `fail_count`. -/
def broadcastRun (sendOk editOk : Nat → Bool) (users : List Nat) :
    List Nat × Nat × Nat :=
  broadcastGo sendOk editOk users.length 1 users [] 0 0

/-- Count the 1-based iteration indices in `[i, i+n)` satisfying `p`. -/
def countIdx (p : Nat → Bool) : Nat → Nat → Nat
  | _, 0 => 0
  | i, n + 1 => (if p i then 1 else 0) + countIdx p (i + 1) n

/-- Number of iterations among `1..n` whose send raises. -/
def sendFailCount (sendOk : Nat → Bool) (n : Nat) : Nat :=
  countIdx (fun i => !sendOk i) 1 n

/-- Number of iterations among `1..n` whose send succeeds. -/
def sendSuccCount (sendOk : Nat → Bool) (n : Nat) : Nat :=
  countIdx sendOk 1 n

/-- Number of iterations among `1..n` whose send succeeds but whose
progress-message edit (due at that iteration) raises. -/
def editFailAfterSendCount (sendOk editOk : Nat → Bool) (total n : Nat) : Nat :=
  countIdx (fun i => sendOk i && (progressPoint i total && !editOk i)) 1 n

/-- Round-half-to-even to an integer, the behaviour of Python's `round`
(floats modelled as exact rationals). -/
def pyRoundHalfEven (q : ℚ) : ℤ :=
  if q - ⌊q⌋ = 1 / 2 then (if ⌊q⌋ % 2 = 0 then ⌊q⌋ else ⌊q⌋ + 1)
  else round q

/-- Python `round(x, 1)`: round half to even at one decimal place. -/
def pyRound1 (q : ℚ) : ℚ :=
  (pyRoundHalfEven (q * 10) : ℚ) / 10

/-- The delivery percentage of the final broadcast report
(`broadcast_confirm` line 532):
`round(success_count/total_users*100, 1) if total_users > 0 else 0`. -/
def deliveryPercentage (succ total : Nat) : ℚ :=
  if 0 < total then pyRound1 ((succ : ℚ) / (total : ℚ) * 100) else 0

/-- The environment variables `main` requires, in source order. -/
def requiredVars : List String :=
  ["BOT_TOKEN", "CHANNEL_USERNAME", "ADMIN_CHAT_ID", "SPREADSHEET_URL"]

/-- Python truthiness of `os.getenv(var)`: falsy when unset or empty. -/
def envTruthy (env : String → Option String) (v : String) : Bool :=
  match env v with
  | none => false
  | some s => !(s == "")

/-- `missing_vars = [var for var in required_vars if not os.getenv(var)]`. -/
def missingVars (env : String → Option String) : List String :=
  requiredVars.filter (fun v => !envTruthy env v)

/-- Outcome of `main`'s startup sequence: abort with the diagnostic listing
the missing variable names, or build the application and start polling. -/
inductive StartupResult where
  | abortedMissing (missing : List String)
  | botPolling
deriving DecidableEq, Repr

/-- `main`: check the required variables; when any is missing, log the
diagnostic naming them (`', '.join(missing_vars)`) and return before
`ApplicationBuilder` is ever constructed; otherwise build and run polling. -/
def mainStartup (env : String → Option String) : StartupResult :=
  if missingVars env = [] then .botPolling
  else .abortedMissing (missingVars env)

/-- Whether the startup outcome involved any messaging-gateway connection:
only the polling path builds the application and connects. -/
def gatewayAttempted : StartupResult → Bool
  | .abortedMissing _ => false
  | .botPolling => true

/-! ## Helper lemmas -/

/-- After inserting a row for a previously absent `uid` (possibly dropping
rows that conflict on other columns), the table has exactly that one row for
`uid`, `find?` returns it, and `any` sees it. -/
lemma table_after_insert (table : List UserRecord) (q : UserRecord → Bool)
    (newRow : UserRecord) (uid : Nat)
    (hnew : table.any (fun r => r.userId == uid) = false)
    (hid : newRow.userId = uid) :
    (table.filter q ++ [newRow]).filter (fun r => r.userId == uid) = [newRow] ∧
    (table.filter q ++ [newRow]).find? (fun r => r.userId == uid) = some newRow ∧
    (table.filter q ++ [newRow]).any (fun r => r.userId == uid) = true := by
  have hall : ∀ r ∈ table, ¬ (r.userId == uid) = true := by
    simpa using List.any_eq_false.mp hnew
  have hsub : ∀ r ∈ table.filter q, ¬ (r.userId == uid) = true := by
    intro r hr
    exact hall r (List.mem_filter.mp hr).1
  refine ⟨?_, ?_, ?_⟩
  · rw [List.filter_append]
    rw [List.filter_eq_nil_iff.mpr hsub]
    simp [hid]
  · rw [List.find?_append]
    rw [List.find?_eq_none.mpr hsub]
    simp [hid]
  · rw [List.any_append]
    simp [hid]

/-- The run equation for a successful first registration in `handle_contact`:
unregistered requester, own contact card, working local storage. -/
lemma handleContact_first_run (appendOk : Bool) (sheet : SheetState)
    (table : List UserRecord) (user : TgUser) (c : Contact)
    (hnew : isUserRegistered true table user.id = false)
    (hc : c.userId = some user.id) :
    handleContact true appendOk sheet table user c =
      (table.filter (fun r =>
          !(r.userId == user.id) &&
          !(r.phone == normalizePhone c.phoneNumber)) ++
        [{ userId := user.id, phone := normalizePhone c.phoneNumber,
           username := user.username.getD "", firstName := c.firstName,
           coupon := genCoupon user.id }],
       (addLead appendOk sheet
          (leadRow c (normalizePhone c.phoneNumber) user (genCoupon user.id))).1,
       ContactOutcome.couponIssued (genCoupon user.id)
         (addLead appendOk sheet
            (leadRow c (normalizePhone c.phoneNumber) user (genCoupon user.id))).2) := by
  simp [handleContact, hnew, hc, registerUser]

/-- Closed form of the fan-out loop: every recipient is attempted in order,
`success_count` counts the successful sends, and `fail_count` counts the
raised sends plus the successful sends whose due progress edit raised. -/
lemma broadcastGo_spec (sendOk editOk : Nat → Bool) (total : Nat) :
    ∀ (users : List Nat) (i : Nat) (att : List Nat) (s f : Nat),
      broadcastGo sendOk editOk total i users att s f =
        (att ++ users,
         s + countIdx sendOk i users.length,
         f + countIdx (fun j => !sendOk j) i users.length
           + countIdx (fun j => sendOk j && (progressPoint j total && !editOk j))
               i users.length) := by
  intro users
  induction users with
  | nil =>
    intro i att s f
    simp [broadcastGo, countIdx]
  | cons u rest ih =>
    intro i att s f
    by_cases hs : sendOk i
    · by_cases he : (progressPoint i total && !editOk i) = true
      · rw [broadcastGo, if_pos hs, if_pos he, ih]
        simp [countIdx, hs, he]
        omega
      · rw [broadcastGo, if_pos hs, if_neg he, ih]
        simp [countIdx, hs, Bool.eq_false_iff.mpr he]
        omega
    · rw [broadcastGo, if_neg hs, ih]
      simp [countIdx, Bool.eq_false_iff.mpr hs]
      omega

/-! ## Claim theorems -/

/-- C2: the coupon issued at enrollment is exactly the campaign prefix
`"PIT-"`, then the participant identity modulo 10000 zero-padded to four
digits, then the discount suffix `"-15"`; hence any two identities congruent
modulo 10000 receive the same code. -/
theorem coupon_derivation_law (P Q : Nat) (h : P % 10000 = Q % 10000) :
    genCoupon P = "PIT-" ++ zpad4 (P % 10000) ++ "-15" ∧
    genCoupon P = genCoupon Q := by
  refine ⟨rfl, ?_⟩
  unfold genCoupon
  rw [h]

/-- Witness for C2 at the concrete congruent pair 10003 ≡ 3 (mod 10000). -/
theorem coupon_derivation_law_witness :
    10003 % 10000 = 3 % 10000 ∧ genCoupon 10003 = genCoupon 3 :=
  ⟨by decide, (coupon_derivation_law 10003 3 (by decide)).2⟩

/-- C3: the claim requires a storage failure to surface as a distinct error
kind; in the code a failed connection makes `is_user_registered` return
`False` and `get_user_coupon` return `None` — byte-identical to the results
for a genuinely absent participant, even when the participant (here id 5)
does have a stored record.  This theorem evaluates the embedded code at that
failing input. -/
theorem storage_failure_reads_as_absent :
    isUserRegistered false [⟨5, "+100", "", "", "PIT-0005-15"⟩] 5 = false ∧
    isUserRegistered false [] 5 = false ∧
    getUserCoupon false [⟨5, "+100", "", "", "PIT-0005-15"⟩] 5 = none ∧
    getUserCoupon false [] 5 = none ∧
    isUserRegistered true [⟨5, "+100", "", "", "PIT-0005-15"⟩] 5 = true := by
  decide

/-- C5: the final broadcast report's delivery percentage is 0 when the
recipient count is 0 (no division occurs: the guard selects the constant
branch), and for a nonzero recipient count it is
`succeeded / recipient_count * 100` rounded to one decimal place. -/
theorem delivery_percentage_law (succ total : Nat) :
    deliveryPercentage succ 0 = 0 ∧
    (0 < total →
      deliveryPercentage succ total = pyRound1 ((succ : ℚ) / (total : ℚ) * 100)) := by
  constructor
  · simp [deliveryPercentage]
  · intro h
    simp [deliveryPercentage, h]

/-- Witness for C5 at 1 success out of 16 recipients (a half-to-even case:
6.25% rounds to 6.2%). -/
theorem delivery_percentage_law_witness :
    (0 < 16 ∧ deliveryPercentage 1 16 = pyRound1 ((1 : ℚ) / (16 : ℚ) * 100)) ∧
    deliveryPercentage 1 16 = 31 / 5 :=
  ⟨⟨by decide, (delivery_percentage_law 1 16).2 (by decide)⟩, by
    norm_num [deliveryPercentage, pyRound1, pyRoundHalfEven]⟩

/-- C6 (as stated) is false: with one recipient whose send succeeds but whose
final progress-message edit raises, the `except` of the loop body catches the
edit error and increments `failed`, so `failed = 1` while the number of
recipients whose send raised is 0. -/
theorem broadcast_failed_count_counterexample :
    (broadcastRun (fun _ => true) (fun _ => false) [7]).2.2 = 1 ∧
    sendFailCount (fun _ => true) ([7] : List Nat).length = 0 ∧
    (broadcastRun (fun _ => true) (fun _ => false) [7]).2.2 ≠
      sendFailCount (fun _ => true) ([7] : List Nat).length := by
  decide

/-- C6 (amended): a send failure for one recipient does not abort the
iteration — every recipient in the snapshot is attempted, in order;
`succeeded` is incremented for exactly the recipients whose send succeeded;
`failed` is incremented for exactly the recipients whose send raised plus
those whose send succeeded but whose due progress-message update raised
(so when every progress update succeeds, `failed` equals exactly the
send-failure count). -/
theorem broadcast_fanout_counts (sendOk editOk : Nat → Bool) (users : List Nat) :
    broadcastRun sendOk editOk users =
      (users,
       sendSuccCount sendOk users.length,
       sendFailCount sendOk users.length +
         editFailAfterSendCount sendOk editOk users.length users.length) := by
  simp [broadcastRun, broadcastGo_spec, sendSuccCount, sendFailCount,
    editFailAfterSendCount]

/-- C7: any caller whose identity differs from the configured operator is
rejected by `broadcast_start` with the fixed refusal, the conversation ends
(the broadcast form is never entered), and the draft state is unchanged. -/
theorem broadcast_admin_only (adminChatId : String) (uid : Nat)
    (ud : BroadcastDraft) (h : toString uid ≠ adminChatId) :
    broadcastStart adminChatId uid ud =
      (ud, BroadcastStartOutcome.rejectedAdminOnly, ConvState.ended) := by
  simp [broadcastStart, h]

/-- Witness for C7: caller 7 against configured operator "42". -/
theorem broadcast_admin_only_witness :
    broadcastStart "42" 7 ⟨none, none, none⟩ =
      (⟨none, none, none⟩, BroadcastStartOutcome.rejectedAdminOnly, ConvState.ended) :=
  broadcast_admin_only "42" 7 ⟨none, none, none⟩ (by decide)

/-- C8: when any required configuration value is unset (or empty), startup
aborts with a diagnostic carrying exactly the missing names — membership in
the reported list is equivalent to being a required name that is unset — and
the messaging gateway is never touched. -/
theorem startup_aborts_on_missing (env : String → Option String) (v : String)
    (hv : v ∈ requiredVars) (hmiss : envTruthy env v = false) :
    mainStartup env = StartupResult.abortedMissing (missingVars env) ∧
    (∀ w, w ∈ missingVars env ↔ w ∈ requiredVars ∧ envTruthy env w = false) ∧
    v ∈ missingVars env ∧
    gatewayAttempted (mainStartup env) = false := by
  have hvm : v ∈ missingVars env := by
    simp [missingVars, List.mem_filter, hv, hmiss]
  have hne : missingVars env ≠ [] := by
    intro h0
    rw [h0] at hvm
    exact absurd hvm (List.not_mem_nil v)
  refine ⟨?_, ?_, hvm, ?_⟩
  · simp [mainStartup, hne]
  · intro w
    simp [missingVars, List.mem_filter]
  · simp [mainStartup, hne, gatewayAttempted]

/-- An environment with every required value set except the operator id. -/
def envMissingAdmin : String → Option String :=
  fun v => if v == "ADMIN_CHAT_ID" then none else some "set"

/-- Witness for C8: the spec's scenario — only the operator identity is
missing; startup aborts naming exactly it, and no gateway connection is
attempted. -/
theorem startup_aborts_on_missing_witness :
    (mainStartup envMissingAdmin =
      StartupResult.abortedMissing (missingVars envMissingAdmin) ∧
     gatewayAttempted (mainStartup envMissingAdmin) = false) ∧
    missingVars envMissingAdmin = ["ADMIN_CHAT_ID"] :=
  ⟨⟨(startup_aborts_on_missing envMissingAdmin "ADMIN_CHAT_ID" (by decide) (by decide)).1,
    (startup_aborts_on_missing envMissingAdmin "ADMIN_CHAT_ID" (by decide)
      (by decide)).2.2.2⟩,
   by decide⟩

/-- C10: for every store state, the count reported by `get_stats` equals the
length of the id list returned by `get_all_users` — also on the failure path,
where they degrade consistently to `0` and `[]` — and the broadcast fan-out
attempts exactly that id list, so preview count, fan-out total and admin
stats agree on the same snapshot. -/
theorem stats_count_matches_recipient_list (conn : Bool) (table : List UserRecord)
    (sendOk editOk : Nat → Bool) :
    getStats conn table = (getAllUsers conn table).length ∧
    (broadcastRun sendOk editOk (getAllUsers conn table)).1 = getAllUsers conn table := by
  constructor
  · cases conn <;> simp [getStats, getAllUsers]
  · simp [broadcastRun, broadcastGo_spec]

/-- C1: with working local storage, a not-yet-enrolled participant who shares
their own contact gets the deterministic coupon and exactly one stored record;
re-running the contact handler presents exactly the stored coupon and leaves
the table byte-identical (so the stored `coupon_code` never changes), and the
other enrollment-sensitive handlers (`start`, `check_subscription`) also
short-circuit to the same existing coupon. -/
theorem registration_flow_idempotent
    (appendOk1 appendOk2 : Bool) (sheet1 sheet2 : SheetState)
    (table : List UserRecord) (user : TgUser) (c1 c2 : Contact)
    (hnew : isUserRegistered true table user.id = false)
    (hc1 : c1.userId = some user.id) :
    ((handleContact true appendOk1 sheet1 table user c1).2.2 =
       ContactOutcome.couponIssued (genCoupon user.id)
         (addLead appendOk1 sheet1
            (leadRow c1 (normalizePhone c1.phoneNumber) user (genCoupon user.id))).2) ∧
    (((handleContact true appendOk1 sheet1 table user c1).1.filter
        (fun r => r.userId == user.id)).length = 1) ∧
    (getUserCoupon true (handleContact true appendOk1 sheet1 table user c1).1 user.id =
       some (genCoupon user.id)) ∧
    (handleContact true appendOk2 sheet2
        (handleContact true appendOk1 sheet1 table user c1).1 user c2 =
      ((handleContact true appendOk1 sheet1 table user c1).1, sheet2,
       ContactOutcome.alreadyRegistered (some (genCoupon user.id)))) ∧
    (startHandler true (handleContact true appendOk1 sheet1 table user c1).1 user.id =
       StartOutcome.existingCoupon (some (genCoupon user.id))) ∧
    (∀ st, checkSubscriptionHandler true
        (handleContact true appendOk1 sheet1 table user c1).1 user.id st =
      CheckOutcome.alreadyRegistered (some (genCoupon user.id))) := by
  have hany : table.any (fun r => r.userId == user.id) = false := by
    simpa [isUserRegistered] using hnew
  obtain ⟨hfil, hfind, hanyT⟩ :=
    table_after_insert table
      (fun r => !(r.userId == user.id) && !(r.phone == normalizePhone c1.phoneNumber))
      { userId := user.id, phone := normalizePhone c1.phoneNumber,
        username := user.username.getD "", firstName := c1.firstName,
        coupon := genCoupon user.id }
      user.id hany rfl
  rw [handleContact_first_run appendOk1 sheet1 table user c1 hnew hc1]
  refine ⟨rfl, ?_, ?_, ?_, ?_, ?_⟩
  · simpa using congrArg List.length hfil
  · simp [getUserCoupon, hfind]
  · simp [handleContact, isUserRegistered, hanyT, getUserCoupon, hfind]
  · simp [startHandler, isUserRegistered, hanyT, getUserCoupon, hfind]
  · intro st
    simp [checkSubscriptionHandler, isUserRegistered, hanyT, getUserCoupon, hfind]

/-- A demonstration sheet, participant and own contact card for witnesses. -/
def demoSheet : SheetState := ⟨true, []⟩

/-- Demonstration participant identity 9. -/
def demoUser : TgUser := ⟨9, some "al", "Al"⟩

/-- Participant 9's own contact card. -/
def demoContact : Contact := ⟨some 9, "79990001122", "Al", none⟩

/-- Witness for C1: participant 9 enrolling from the empty table, then
triggering the contact handler a second time. -/
theorem registration_flow_idempotent_witness :
    (isUserRegistered true ([] : List UserRecord) demoUser.id = false ∧
     demoContact.userId = some demoUser.id) ∧
    handleContact true true demoSheet
        (handleContact true true demoSheet [] demoUser demoContact).1
        demoUser demoContact =
      ((handleContact true true demoSheet [] demoUser demoContact).1, demoSheet,
       ContactOutcome.alreadyRegistered (some (genCoupon demoUser.id))) :=
  ⟨⟨by decide, by decide⟩,
   (registration_flow_idempotent true true demoSheet demoSheet [] demoUser
     demoContact demoContact (by decide) (by decide)).2.2.2.1⟩

/-- C4: when the lead sink is disconnected, or its write fails, every
`add_lead` call returns failure without raising (the embedding is a total
function precisely because the source catches all exceptions) and leaves the
sheet unchanged; the participant's local enrollment still succeeds — the
coupon message is still presented (with the sink flag `false`), the
participant is registered, and the stored coupon is retrievable. -/
theorem sink_failure_nonfatal
    (appendOk : Bool) (sheet : SheetState) (table : List UserRecord)
    (user : TgUser) (c : Contact)
    (hnew : isUserRegistered true table user.id = false)
    (hc : c.userId = some user.id)
    (hsink : sheet.isConnected = false ∨ appendOk = false) :
    (∀ row, addLead appendOk sheet row = (sheet, false)) ∧
    ((handleContact true appendOk sheet table user c).2.2 =
       ContactOutcome.couponIssued (genCoupon user.id) false) ∧
    ((handleContact true appendOk sheet table user c).2.1 = sheet) ∧
    (isUserRegistered true (handleContact true appendOk sheet table user c).1
       user.id = true) ∧
    (getUserCoupon true (handleContact true appendOk sheet table user c).1 user.id =
       some (genCoupon user.id)) := by
  have haddLead : ∀ row, addLead appendOk sheet row = (sheet, false) := by
    intro row
    rcases hsink with h | h
    · simp [addLead, h]
    · by_cases hcon : sheet.isConnected <;> simp [addLead, h, hcon]
  have hany : table.any (fun r => r.userId == user.id) = false := by
    simpa [isUserRegistered] using hnew
  obtain ⟨hfil, hfind, hanyT⟩ :=
    table_after_insert table
      (fun r => !(r.userId == user.id) && !(r.phone == normalizePhone c.phoneNumber))
      { userId := user.id, phone := normalizePhone c.phoneNumber,
        username := user.username.getD "", firstName := c.firstName,
        coupon := genCoupon user.id }
      user.id hany rfl
  rw [handleContact_first_run appendOk sheet table user c hnew hc]
  rw [haddLead]
  exact ⟨haddLead, rfl, rfl, by simp [isUserRegistered, hanyT],
    by simp [getUserCoupon, hfind]⟩

/-- A disconnected lead sink, for the C4 witness. -/
def offSheet : SheetState := ⟨false, []⟩

/-- Witness for C4: participant 9 enrolls while the sink is disconnected. -/
theorem sink_failure_nonfatal_witness :
    ((handleContact true true offSheet [] demoUser demoContact).2.2 =
       ContactOutcome.couponIssued (genCoupon demoUser.id) false) ∧
    isUserRegistered true
      (handleContact true true offSheet [] demoUser demoContact).1 demoUser.id = true :=
  ⟨(sink_failure_nonfatal true offSheet [] demoUser demoContact (by decide)
      (by decide) (Or.inl (by decide))).2.1,
   (sink_failure_nonfatal true offSheet [] demoUser demoContact (by decide)
      (by decide) (Or.inl (by decide))).2.2.2.1⟩

/-- C9: a contact-share whose contact identity differs from the requester's
never changes the enrollment store (nor the sheet); when the requester is in
the contact-collection situation (not yet enrolled), the handler replies with
the own-number re-prompt and nothing else. -/
theorem contact_mismatch_rejected
    (conn appendOk : Bool) (sheet : SheetState) (table : List UserRecord)
    (user : TgUser) (c : Contact) (hne : c.userId ≠ some user.id) :
    ((handleContact conn appendOk sheet table user c).1 = table) ∧
    ((handleContact conn appendOk sheet table user c).2.1 = sheet) ∧
    (isUserRegistered conn table user.id = false →
      handleContact conn appendOk sheet table user c =
        (table, sheet, ContactOutcome.promptOwnContact)) := by
  by_cases hreg : isUserRegistered conn table user.id
  · refine ⟨by simp [handleContact, hreg], by simp [handleContact, hreg], ?_⟩
    intro h0
    rw [h0] at hreg
    exact absurd hreg (by simp)
  · have hreg0 : isUserRegistered conn table user.id = false :=
      Bool.eq_false_iff.mpr hreg
    refine ⟨?_, ?_, fun _ => ?_⟩ <;> simp [handleContact, hreg0, hne]

/-- A third party's contact card, for the C9 witness. -/
def strangerContact : Contact := ⟨some 8, "70001112233", "Bo", none⟩

/-- Witness for C9: not-yet-enrolled participant 9 shares participant 8's
card — re-prompt, store and sheet untouched. -/
theorem contact_mismatch_rejected_witness :
    strangerContact.userId ≠ some demoUser.id ∧
    handleContact true true demoSheet [] demoUser strangerContact =
      ([], demoSheet, ContactOutcome.promptOwnContact) :=
  ⟨by decide,
   (contact_mismatch_rejected true true demoSheet [] demoUser strangerContact
      (by decide)).2.2 (by decide)⟩
